import Mathlib

/-!
Shallow embedding of `braitenberg_vehicle_controller.cpp`
(repository `dskkato/ros_handson_packages`).

The controller is a single ROS2 node class `BraitenbergVehicleController`
with state `base_link_frame_id_`, two virtual-light-sensor offsets,
an optional goal pose guarded by a mutex, and an injected motion model.
C++ `double` arithmetic is idealised as real arithmetic over `ℝ`;
the machine epsilon `std::numeric_limits<double>::epsilon()` is the
concrete constant `2⁻⁵²`.

Each callback is embedded as a pure function from the controller state
(and the incoming message) to the new state together with a trace of the
primitive shared-state / I/O events the body performs in order
(`lock`, `unlock`, goal reads/writes, `publish`), so that the locking
discipline and the published messages are observable.
-/

namespace BraitenbergVehicle

/-- `geometry_msgs::msg::Point` (position part of a pose). -/
structure Point where
  x : ℝ
  y : ℝ
  z : ℝ

/-- `geometry_msgs::msg::Quaternion` (orientation part of a pose). -/
structure Quaternion where
  x : ℝ
  y : ℝ
  z : ℝ
  w : ℝ

/-- `geometry_msgs::msg::Pose`. -/
structure Pose where
  position : Point
  orient : Quaternion

/-- `std_msgs::msg::Header`: only the `frame_id` field is used by the code. -/
structure Header where
  frame_id : String

/-- `geometry_msgs::msg::PoseStamped`. -/
structure PoseStamped where
  header : Header
  pose : Pose

/-- `geometry_msgs::msg::Vector3`. -/
structure Vector3 where
  x : ℝ
  y : ℝ
  z : ℝ

/-- `geometry_msgs::msg::Twist`: linear and angular velocity. -/
structure Twist where
  linear : Vector3
  angular : Vector3

/-- The default-constructed `geometry_msgs::msg::Twist()`: all components zero. -/
def Twist.zero : Twist := ⟨⟨0, 0, 0⟩, ⟨0, 0, 0⟩⟩

/-- `sensor_msgs::msg::LaserScan` — received but never inspected by the code. -/
structure LaserScan where
  ranges : List ℝ
  angle_min : ℝ
  angle_max : ℝ
  angle_increment : ℝ

/-- The motion model collaborator (`motion_model_`): wheel parameters and the
opaque kinematics map `get_twist` from the two sensor inputs to a `Twist`.
Its internals are external to this translation unit; only the values the
controller passes to `get_twist` matter here. -/
structure MotionModel where
  wheel_radius : ℝ
  wheel_base : ℝ
  get_twist : ℝ → ℝ → Twist

/-- The mutable / configured state of `BraitenbergVehicleController`. -/
structure ControllerState where
  base_link_frame_id : String
  virtual_light_sensor_position_x_offset : ℝ
  virtual_light_sensor_position_y_offset : ℝ
  goal_pose : Option Pose

/-- Primitive events a callback body performs, in program order:
mutex acquisition/release, reads and writes of the shared `goal_pose_`
field (with the value read/written), and publishing on `/cmd_vel`. -/
inductive Event where
  | lock : Event
  | unlock : Event
  | readGoal (g : Option Pose) : Event
  | writeGoal (g : Option Pose) : Event
  | publish (t : Twist) : Event

/-- `std::numeric_limits<double>::epsilon()` for IEEE-754 binary64. -/
noncomputable def machineEps : ℝ := 1 / 2 ^ 52

/-- `std::hypot(a, b)`: the Euclidean norm `√(a² + b²)`. -/
noncomputable def hypot (a b : ℝ) : ℝ := Real.sqrt (a ^ 2 + b ^ 2)

/-- `BraitenbergVehicleController::emulate_light_sensor`:
if a goal is held, the distance from the goal position to the sensor
mounting point `(x_offset, y_offset)` is computed with `std::hypot`;
a distance within machine epsilon of zero yields 1, otherwise the
reading is `1 / distance`; with no goal the reading is 0. -/
noncomputable def emulate_light_sensor (s : ControllerState)
    (x_offset y_offset : ℝ) : ℝ :=
  match s.goal_pose with
  | some gp =>
    let distance := hypot (gp.position.x - x_offset) (gp.position.y - y_offset)
    if |distance| ≤ machineEps then 1 else 1 / distance
  | none => 0

/-- `BraitenbergVehicleController::scan_callback`: locks and unlocks the
mutex and does nothing else; the state is unchanged. -/
def scan_callback (s : ControllerState) (_scan : LaserScan) :
    ControllerState × List Event :=
  (s, [Event.lock, Event.unlock])

/-- `BraitenbergVehicleController::goal_pose_callback`: under the mutex,
stores the received pose as the goal when its `frame_id` matches
`base_link_frame_id_`, and stores `std::nullopt` otherwise. -/
def goal_pose_callback (s : ControllerState) (p : PoseStamped) :
    ControllerState × List Event :=
  let g : Option Pose :=
    if p.header.frame_id = s.base_link_frame_id then some p.pose else none
  ({ s with goal_pose := g }, [Event.lock, Event.writeGoal g, Event.unlock])

/-- `BraitenbergVehicleController::timer_callback`: under the mutex, if a
goal is held, publishes `motion_model_.get_twist` of the two sensor
readings (left wheel input from the right-mounted sensor at
`(x_offset, y_offset * -1)`, right wheel input from the left-mounted
sensor at `(x_offset, y_offset)`); otherwise publishes a
default-constructed (zero) `Twist`. The state is unchanged. -/
noncomputable def timer_callback (m : MotionModel) (s : ControllerState) :
    ControllerState × List Event :=
  match s.goal_pose with
  | some _ =>
    (s, [Event.lock, Event.readGoal s.goal_pose,
         Event.publish (m.get_twist
           (emulate_light_sensor s
             s.virtual_light_sensor_position_x_offset
             (s.virtual_light_sensor_position_y_offset * (-1)))
           (emulate_light_sensor s
             s.virtual_light_sensor_position_x_offset
             s.virtual_light_sensor_position_y_offset)),
         Event.unlock])
  | none =>
    (s, [Event.lock, Event.readGoal s.goal_pose,
         Event.publish Twist.zero, Event.unlock])

/-- The messages published on `/cmd_vel` during a trace, in order. -/
def published (tr : List Event) : List Twist :=
  tr.filterMap fun e =>
    match e with
    | Event.publish t => some t
    | _ => none

/-- Starting from mutex depth `d`, the trace is lock-balanced: no `unlock`
without a matching `lock`, and the mutex is fully released at the end. -/
def lockBalancedFrom : Nat → List Event → Bool
  | d, [] => d = 0
  | d, Event.lock :: r => lockBalancedFrom (d + 1) r
  | d, Event.unlock :: r => d ≠ 0 && lockBalancedFrom (d - 1) r
  | d, _ :: r => lockBalancedFrom d r

/-- Starting from mutex depth `d`, every read or write of the shared
`goal_pose_` field happens while the mutex is held. -/
def goalAccessLocked : Nat → List Event → Bool
  | _, [] => true
  | d, Event.lock :: r => goalAccessLocked (d + 1) r
  | d, Event.unlock :: r => goalAccessLocked (d - 1) r
  | d, Event.readGoal _ :: r => d ≠ 0 && goalAccessLocked d r
  | d, Event.writeGoal _ :: r => d ≠ 0 && goalAccessLocked d r
  | d, Event.publish _ :: r => goalAccessLocked d r

/-- Starting from mutex depth `d`, every `publish` happens while the mutex
is NOT held (the lock is released before, or never held during, a publish). -/
def publishLockFree : Nat → List Event → Bool
  | _, [] => true
  | d, Event.lock :: r => publishLockFree (d + 1) r
  | d, Event.unlock :: r => publishLockFree (d - 1) r
  | d, Event.publish _ :: r => d = 0 && publishLockFree d r
  | d, _ :: r => publishLockFree d r

/-- Starting from mutex depth `d`, every `publish` happens while the mutex
IS held. -/
def publishUnderLock : Nat → List Event → Bool
  | _, [] => true
  | d, Event.lock :: r => publishUnderLock (d + 1) r
  | d, Event.unlock :: r => publishUnderLock (d - 1) r
  | d, Event.publish _ :: r => d ≠ 0 && publishUnderLock d r
  | d, _ :: r => publishUnderLock d r

/-- The spec's reference sensor law, written from its words: 0 with no goal;
otherwise, with `d` the Euclidean distance between the goal position and the
point `(x_offset, y_offset)`, 1 when `|d|` is at or below machine epsilon and
`1 / d` otherwise. -/
noncomputable def light_sensor_spec (goal : Option Pose)
    (x_offset y_offset : ℝ) : ℝ :=
  match goal with
  | none => 0
  | some g =>
    let d := Real.sqrt ((g.position.x - x_offset) ^ 2 +
      (g.position.y - y_offset) ^ 2)
    if |d| ≤ machineEps then 1 else 1 / d

/-- A pose at planar position `(x, y)` with identity orientation. -/
def poseAt (x y : ℝ) : Pose := ⟨⟨x, y, 0⟩, ⟨0, 0, 0, 1⟩⟩

/-- A controller state holding a goal at `(x, y)`, zero sensor offsets. -/
def stateWithGoal (x y : ℝ) : ControllerState :=
  ⟨"base_link", 0, 0, some (poseAt x y)⟩

/-- A controller state holding no goal. -/
def stateIdle : ControllerState := ⟨"base_link", 0, 0, none⟩

/-- A concrete motion model whose kinematics map returns its inputs in the
linear-x and angular-z slots, making the passed arguments observable. -/
def mm0 : MotionModel := ⟨0, 0, fun l r => ⟨⟨l, 0, 0⟩, ⟨0, 0, r⟩⟩⟩

/-- `std::hypot` never returns a negative value. -/
lemma hypot_nonneg (a b : ℝ) : 0 ≤ hypot a b := Real.sqrt_nonneg _

/-- Machine epsilon is strictly positive. -/
lemma machineEps_pos : 0 < machineEps := by
  rw [machineEps]; positivity

/-- Claim C1: after `goal_pose_callback` processes a pose stamped with frame
id `F`, the stored goal equals `some` of that pose iff `F` equals the
configured base frame id, and for any other `F` the goal is cleared to
`none`, regardless of the goal held before. -/
theorem goal_pose_callback_frame_gate (s : ControllerState) (p : PoseStamped) :
    ((goal_pose_callback s p).1.goal_pose = some p.pose ↔
      p.header.frame_id = s.base_link_frame_id) ∧
    (p.header.frame_id ≠ s.base_link_frame_id →
      (goal_pose_callback s p).1.goal_pose = none) := by
  by_cases h : p.header.frame_id = s.base_link_frame_id <;>
    simp [goal_pose_callback, h]

/-- Claim C2: `emulate_light_sensor` coincides with the spec's piecewise
reference function (0 with no goal; 1 when the Euclidean distance from the
goal to the sensor point is within machine epsilon of zero; `1 / d`
otherwise). -/
theorem emulate_light_sensor_matches_spec (s : ControllerState) (x y : ℝ) :
    emulate_light_sensor s x y = light_sensor_spec s.goal_pose x y := by
  cases h : s.goal_pose <;>
    simp [emulate_light_sensor, light_sensor_spec, hypot, h]

/-- Claim C8: `scan_callback` performs no computation and leaves the whole
controller state unchanged; its trace is exactly a lock acquisition followed
by a release. -/
theorem scan_callback_no_effect (s : ControllerState) (scan : LaserScan) :
    (scan_callback s scan).1 = s ∧
    (scan_callback s scan).2 = [Event.lock, Event.unlock] :=
  ⟨rfl, rfl⟩

/-- Claim C9: lock discipline — in every operation (scan callback, goal
callback, control tick) each read and write of the shared goal happens
while the single mutex is held, and the mutex is released on every exit
path, so a tick always observes a fully-formed `some` pose or `none`. -/
theorem lock_discipline_all_callbacks (s : ControllerState) (p : PoseStamped)
    (scan : LaserScan) (m : MotionModel) :
    (goalAccessLocked 0 (scan_callback s scan).2 = true ∧
      lockBalancedFrom 0 (scan_callback s scan).2 = true) ∧
    (goalAccessLocked 0 (goal_pose_callback s p).2 = true ∧
      lockBalancedFrom 0 (goal_pose_callback s p).2 = true) ∧
    (goalAccessLocked 0 (timer_callback m s).2 = true ∧
      lockBalancedFrom 0 (timer_callback m s).2 = true) := by
  cases h : s.goal_pose <;>
    simp [scan_callback, goal_pose_callback, timer_callback, h,
      goalAccessLocked, lockBalancedFrom]

/-- Claim C10: the sensor reading is always non-negative, it is 0 exactly
when no goal is held, and whenever a goal is present it is strictly
positive. -/
theorem emulate_light_sensor_sign (s : ControllerState) (x y : ℝ) :
    0 ≤ emulate_light_sensor s x y ∧
    (emulate_light_sensor s x y = 0 ↔ s.goal_pose = none) ∧
    (s.goal_pose ≠ none → 0 < emulate_light_sensor s x y) := by
  cases h : s.goal_pose with
  | none => simp [emulate_light_sensor, h]
  | some g =>
    have hpos : 0 < emulate_light_sensor s x y := by
      simp only [emulate_light_sensor, h]
      split
      · exact one_pos
      · rename_i hguard
        have habs : machineEps < |hypot (g.position.x - x) (g.position.y - y)| :=
          lt_of_not_le hguard
        have hd : 0 < hypot (g.position.x - x) (g.position.y - y) := by
          have := (abs_of_nonneg (hypot_nonneg (g.position.x - x)
            (g.position.y - y))) ▸ habs
          exact lt_trans machineEps_pos this
        exact one_div_pos.mpr hd
    refine ⟨le_of_lt hpos, ?_, fun _ => hpos⟩
    constructor
    · intro h0
      rw [h0] at hpos
      exact absurd hpos (lt_irrefl 0)
    · intro hn
      simp [h] at hn

/-- Claim C3: on a control tick with a goal held, the value passed as the
motion model's first (left-input) argument is the reading at offset
`(x_offset, -y_offset)` and the second (right-input) argument is the
reading at `(x_offset, +y_offset)` — the crossed wiring. -/
theorem timer_callback_crossed_wiring (m : MotionModel) (s : ControllerState)
    (g : Pose) (hg : s.goal_pose = some g) :
    published (timer_callback m s).2 =
      [m.get_twist
        (emulate_light_sensor s s.virtual_light_sensor_position_x_offset
          (- s.virtual_light_sensor_position_y_offset))
        (emulate_light_sensor s s.virtual_light_sensor_position_x_offset
          s.virtual_light_sensor_position_y_offset)] := by
  simp [timer_callback, hg, published, mul_neg_one]

/-- Witness for C3 at a concrete motion model and goal state. -/
theorem timer_callback_crossed_wiring_witness :
    published (timer_callback mm0 (stateWithGoal 1 0)).2 =
      [mm0.get_twist
        (emulate_light_sensor (stateWithGoal 1 0)
          (stateWithGoal 1 0).virtual_light_sensor_position_x_offset
          (- (stateWithGoal 1 0).virtual_light_sensor_position_y_offset))
        (emulate_light_sensor (stateWithGoal 1 0)
          (stateWithGoal 1 0).virtual_light_sensor_position_x_offset
          (stateWithGoal 1 0).virtual_light_sensor_position_y_offset)] :=
  timer_callback_crossed_wiring mm0 (stateWithGoal 1 0) (poseAt 1 0) rfl

/-- Claim C4: every control tick publishes exactly one message — the motion
model's output when a goal is held, the zero `Twist` when not; never zero
messages and never more than one. -/
theorem timer_callback_publishes_exactly_once (m : MotionModel)
    (s : ControllerState) :
    (published (timer_callback m s).2).length = 1 ∧
    (s.goal_pose = none → published (timer_callback m s).2 = [Twist.zero]) ∧
    (∀ g, s.goal_pose = some g → published (timer_callback m s).2 =
      [m.get_twist
        (emulate_light_sensor s s.virtual_light_sensor_position_x_offset
          (s.virtual_light_sensor_position_y_offset * (-1)))
        (emulate_light_sensor s s.virtual_light_sensor_position_x_offset
          s.virtual_light_sensor_position_y_offset)]) := by
  cases h : s.goal_pose <;> simp [timer_callback, published, h]

/-- Counterexample to claim C5 as stated: with the goal at distance 1/2
from the sensor point, the reading is `1 / (1/2) = 2 > 1`, so 1 is not the
maximum value of `emulate_light_sensor`. -/
theorem emulate_light_sensor_gt_one_cex :
    1 < emulate_light_sensor (stateWithGoal (1 / 2) 0) 0 0 := by
  have h1 : ((poseAt (1 / 2 : ℝ) 0).position.x - 0) ^ 2 +
      ((poseAt (1 / 2 : ℝ) 0).position.y - 0) ^ 2 = (1 / 2 : ℝ) ^ 2 := by
    simp [poseAt]
  have hkey : hypot ((poseAt (1 / 2 : ℝ) 0).position.x - 0)
      ((poseAt (1 / 2 : ℝ) 0).position.y - 0) = 1 / 2 := by
    rw [hypot, h1, Real.sqrt_sq (by norm_num : (0 : ℝ) ≤ 1 / 2)]
  have hguard : ¬ |(1 / 2 : ℝ)| ≤ machineEps := by
    rw [abs_of_pos (by norm_num : (0 : ℝ) < 1 / 2), machineEps]
    norm_num
  simp only [emulate_light_sensor, stateWithGoal]
  rw [hkey, if_neg hguard]
  norm_num

/-- Claim C5 as amended: the reading is at most 1 whenever the distance
from the goal to the sensor mounting point is within machine epsilon of
zero or at least 1. -/
theorem emulate_light_sensor_le_one (s : ControllerState) (g : Pose)
    (x y : ℝ) (hg : s.goal_pose = some g)
    (hd : |hypot (g.position.x - x) (g.position.y - y)| ≤ machineEps ∨
      1 ≤ hypot (g.position.x - x) (g.position.y - y)) :
    emulate_light_sensor s x y ≤ 1 := by
  simp only [emulate_light_sensor, hg]
  split
  · exact le_refl 1
  · rename_i hguard
    rcases hd with hd | hd
    · exact absurd hd hguard
    · exact (div_le_one (lt_of_lt_of_le zero_lt_one hd)).mpr hd

/-- Witness for the amended C5: goal at distance exactly 1. -/
theorem emulate_light_sensor_le_one_witness :
    emulate_light_sensor (stateWithGoal 1 0) 0 0 ≤ 1 := by
  refine emulate_light_sensor_le_one (stateWithGoal 1 0) (poseAt 1 0) 0 0 rfl
    (Or.inr ?_)
  have h1 : hypot ((poseAt (1 : ℝ) 0).position.x - 0)
      ((poseAt (1 : ℝ) 0).position.y - 0) = 1 := by
    simp only [hypot, poseAt]
    norm_num [Real.sqrt_one]
  rw [h1]

/-- Counterexample to claim C6 as stated: on an idle tick the trace is
lock, read, publish, unlock — the publish happens while the mutex is held,
so the lock is NOT released before publishing. -/
theorem timer_callback_publish_lock_free_cex :
    publishLockFree 0 (timer_callback mm0 stateIdle).2 = false := rfl

/-- Claim C6 as amended: the control tick holds the lock across the publish
call — every publish in its trace occurs with the mutex held — and the lock
is released before the callback returns, on every path. -/
theorem timer_callback_lock_held_across_publish (m : MotionModel)
    (s : ControllerState) :
    publishUnderLock 0 (timer_callback m s).2 = true ∧
    lockBalancedFrom 0 (timer_callback m s).2 = true := by
  cases h : s.goal_pose <;>
    simp [timer_callback, h, publishUnderLock, lockBalancedFrom]

/-- Claim C7: the `1 / distance` branch is reached only when the distance
exceeds machine epsilon, so its divisor is nonzero — the division never
divides by an (effectively) zero value. -/
theorem emulate_light_sensor_no_div_by_zero (s : ControllerState) (g : Pose)
    (x y : ℝ) (hg : s.goal_pose = some g)
    (hguard : ¬ |hypot (g.position.x - x) (g.position.y - y)| ≤ machineEps) :
    hypot (g.position.x - x) (g.position.y - y) ≠ 0 ∧
    emulate_light_sensor s x y =
      1 / hypot (g.position.x - x) (g.position.y - y) := by
  have habs : machineEps < |hypot (g.position.x - x) (g.position.y - y)| :=
    lt_of_not_le hguard
  have hd : 0 < hypot (g.position.x - x) (g.position.y - y) := by
    rw [abs_of_nonneg (hypot_nonneg (g.position.x - x) (g.position.y - y))]
      at habs
    exact lt_trans machineEps_pos habs
  refine ⟨ne_of_gt hd, ?_⟩
  simp only [emulate_light_sensor, hg]
  rw [if_neg hguard]

/-- Witness for C7 at a goal at distance 1 from the sensor point. -/
theorem emulate_light_sensor_no_div_by_zero_witness :
    hypot ((poseAt 1 0).position.x - 0) ((poseAt 1 0).position.y - 0) ≠ 0 ∧
    emulate_light_sensor (stateWithGoal 1 0) 0 0 =
      1 / hypot ((poseAt 1 0).position.x - 0) ((poseAt 1 0).position.y - 0) := by
  refine emulate_light_sensor_no_div_by_zero (stateWithGoal 1 0) (poseAt 1 0)
    0 0 rfl ?_
  have h1 : hypot ((poseAt (1 : ℝ) 0).position.x - 0)
      ((poseAt (1 : ℝ) 0).position.y - 0) = 1 := by
    simp only [hypot, poseAt]
    norm_num [Real.sqrt_one]
  rw [h1, abs_one, machineEps]
  norm_num

end BraitenbergVehicle
